import Mathlib

/-!
# FluxMedia adapter + pipeline core: shallow embedding and verification

This file embeds, in Lean, the parts of the FluxMedia repository that the
verified properties talk about:

* the error taxonomy (`packages/core/src/errors.ts`: `MediaErrorCode`,
  `MediaError`, `createMediaError`);
* the destination-key / public-id computation of the three provider
  adapters (`S3Provider.generateKey`, `R2Provider.generateKey`,
  `CloudinaryProvider.mapOptions`);
* the batch operations (`uploadMultiple`, `deleteMultiple`) with their
  chunked processing loops;
* per-adapter upstream-error mapping (`mapS3Error`, `mapCloudinaryError`)
  and the `delete` flows;
* adapter construction-time config validation;
* the facade's `supports` dotted-path feature lookup and `search`;
* a model of the runtime own-property layout of adapter instances
  (for the serialization/credential-exposure property);
* the plugin pipeline (modelled from the spec, see `Pipeline` below: the
  hook-execution code itself is not among the source files, only its
  consumers and documentation are).

JavaScript-specific behaviours that the code relies on are modelled
explicitly: string/`undefined` truthiness (`jsTruthy`), `??` vs `||`
semantics, `Number.prototype.toString(36)`, `String.prototype.padStart`,
and own-property enumerability.
-/

/-! ## JS value helpers -/

/-- JS truthiness of an optional string: `undefined` and `""` are falsy. -/
def jsTruthy : Option String → Bool
  | none => false
  | some s => s ≠ ""

/-- `a ?? b` for an optional string: only `undefined`/`null` falls through
(`""` does not). -/
def jsCoalesce (a : Option String) (b : String) : String :=
  match a with
  | none => b
  | some s => s

/-- Structural contiguous-sublist test (kernel-reducible). -/
def listIsInfixOf (pat : List Char) : List Char → Bool
  | [] => pat.isEmpty
  | c :: cs => pat.isPrefixOf (c :: cs) || listIsInfixOf pat cs

/-- Substring test, modelling JS `String.prototype.includes`. -/
def strIncludes (s pat : String) : Bool :=
  listIsInfixOf pat.toList s.toList

/-- ASCII lowercasing of one character, modelling what
`String.prototype.toLowerCase` does on the ASCII messages involved. -/
def asciiLower (c : Char) : Char :=
  if 65 ≤ c.toNat ∧ c.toNat ≤ 90 then Char.ofNat (c.toNat + 32) else c

/-- `s.toLowerCase()` on ASCII strings. -/
def strToLower (s : String) : String :=
  String.mk (s.toList.map asciiLower)

/-! ## Error taxonomy (packages/core/src/errors.ts) -/

/-- The closed set of error kinds of the `MediaErrorCode` enum. -/
inductive MediaErrorCode where
  | UPLOAD_FAILED
  | FILE_TOO_LARGE
  | INVALID_FILE_TYPE
  | NETWORK_ERROR
  | INVALID_CREDENTIALS
  | UNAUTHORIZED
  | PROVIDER_ERROR
  | RATE_LIMITED
  | QUOTA_EXCEEDED
  | INVALID_CONFIG
  | MISSING_CREDENTIALS
  | FILE_NOT_FOUND
  | DELETE_FAILED
  deriving DecidableEq, Repr

/-- An upstream (provider SDK) thrown value as the adapters inspect it:
either an `Error`-like object carrying `name`/`message` and (for some SDKs)
an HTTP status code, or a non-`Error` value that is not inspectable. -/
inductive Upstream where
  | err (name : String) (message : String) (httpCode : Option Nat)
  | nonError
  deriving DecidableEq, Repr

/-- The structured error value crossing the uploader boundary
(class `MediaError`). `details` is the optional structured details map,
modelled as a flat association list. -/
structure MediaError where
  message : String
  code : MediaErrorCode
  provider : String
  originalError : Option Upstream
  details : Option (List (String × String))
  deriving DecidableEq, Repr

/-- `createMediaError(code, provider, error, additionalDetails?)`:
the message is taken from the upstream error when it is an `Error`
instance and defaults to the fixed placeholder otherwise. -/
def createMediaError (code : MediaErrorCode) (provider : String)
    (error : Upstream) (additionalDetails : Option (List (String × String))) :
    MediaError :=
  { message :=
      match error with
      | .err _ m _ => m
      | .nonError => "An unknown error occurred"
    code := code
    provider := provider
    originalError := some error
    details := additionalDetails }

/-- Extract the taxonomy kind of a failed operation (helper for stating
theorems about `Except MediaError` results). -/
def errCode : Except MediaError Unit → Option MediaErrorCode
  | .error e => some e.code
  | .ok _ => none

/-- Extract the `details` payload of a failed operation; `some d` means the
operation failed and its error's `details` field is `d`. -/
def errDetails : Except MediaError Unit → Option (Option (List (String × String)))
  | .error e => some e.details
  | .ok _ => none

/-! ## Upload options and key generation -/

/-- The slice of `UploadOptions` that destination-key computation reads:
`filename`, `folder` (optional strings) and `uniqueFilename`
(optional boolean, absent means default). -/
structure UploadOptions where
  filename : Option String
  folder : Option String
  uniqueFilename : Option Bool
  deriving DecidableEq, Repr

/-- The folder prefix `options?.folder ? options.folder + '/' : ''`
(JS truthiness: an empty-string folder contributes nothing). -/
def folderPrefix (o : UploadOptions) : String :=
  match o.folder with
  | some f => if f = "" then "" else f ++ "/"
  | none => ""

namespace S3Provider

/-- `S3Provider.generateKey` (s3-provider.ts): the random id generated by
`generateRandomId()` is passed in as `randomId` (it is only consulted when
`filename` is absent). Note the source never consults
`options.uniqueFilename` and never appends a suffix. -/
def generateKey (o : UploadOptions) (randomId : String) : String :=
  let filename := jsCoalesce o.filename randomId
  folderPrefix o ++ filename

end S3Provider

namespace R2Provider

/-- `R2Provider.generateKey` (r2-provider.ts): appends `-<shortId>` to a
caller-supplied (truthy) filename unless `uniqueFilename` is literally
`false`; the outputs of `generateRandomId()` / `generateShortId()` are
passed in as oracles. -/
def generateKey (o : UploadOptions) (randomId shortId : String) : String :=
  let baseFilename := jsCoalesce o.filename randomId
  let shouldMakeUnique := o.uniqueFilename ≠ some false
  let filename :=
    if shouldMakeUnique ∧ jsTruthy o.filename then
      baseFilename ++ "-" ++ shortId
    else baseFilename
  folderPrefix o ++ filename

end R2Provider

namespace CloudinaryProvider

/-- The `public_id` computed by `CloudinaryProvider.mapOptions`: set only
for a truthy `filename`; suffixed with `-<shortId>` unless
`uniqueFilename` is literally `false`. -/
def publicId (o : UploadOptions) (shortId : String) : Option String :=
  if jsTruthy o.filename then
    let f := jsCoalesce o.filename ""
    some (if o.uniqueFilename ≠ some false then f ++ "-" ++ shortId else f)
  else none

/-- The `folder` option forwarded by `mapOptions` (only when truthy). -/
def folderOption (o : UploadOptions) : Option String :=
  if jsTruthy o.folder then o.folder else none

/-- The id of the normalized upload result, `response.public_id`.
This models the external Cloudinary service contract (an out-of-scope
collaborator): when an upload request carries a `folder`, the service
stores the asset under `folder/public_id` and reports that joined path as
the response's `public_id`; with no `public_id` the service assigns a
random id (the `backendRandom` oracle). -/
def resultId (o : UploadOptions) (shortId backendRandom : String) : String :=
  let pid := (publicId o shortId).getD backendRandom
  match folderOption o with
  | some f => f ++ "/" ++ pid
  | none => pid

end CloudinaryProvider

/-! ## Chunked batch loops (`for (let i = 0; i < xs.length; i += concurrency)`) -/

/-- Fuel-driven splitting of a list into consecutive chunks of size `c`
(the last chunk may be shorter), mirroring the providers' batching loop
`for (i = 0; i < xs.length; i += c) { batch = xs.slice(i, i + c); ... }`. -/
def chunksOfAux (c : Nat) : Nat → List α → List (List α)
  | _, [] => []
  | 0, _ :: _ => []
  | fuel + 1, x :: xs => (x :: xs).take c :: chunksOfAux c fuel ((x :: xs).drop c)

/-- The batch windows the providers' loops process, in order. -/
def chunksOf (c : Nat) (l : List α) : List (List α) :=
  chunksOfAux c l.length l

/-! ## `deleteMultiple` (Cloudinary / S3 / R2, identical aggregation logic) -/

/-- The backend outcome oracle for one delete: `none` means the individual
delete resolved, `some e` means it rejected with upstream error `e`. -/
def DeleteOutcome := String → Option Upstream

/-- The `failed` array accumulated by `deleteMultiple`: the loop walks the
ids in windows of 10, runs `Promise.allSettled` on each window and appends
the window's rejected ids (in window order) to `failed`. -/
def failedIds (outcome : DeleteOutcome) (ids : List String) : List String :=
  (chunksOf 10 ids).foldl
    (fun acc batch => acc ++ batch.filter (fun id => (outcome id).isSome)) []

/-- `deleteMultiple(ids)` as implemented by all three providers: attempt
every id (windows of 10, `Promise.allSettled`), then, if any failed, throw
one aggregate `DELETE_FAILED` error built by
`createMediaError(DELETE_FAILED, name, new Error(...))` — note the call
site passes no `additionalDetails`. -/
def deleteMultipleModel (provider : String) (outcome : DeleteOutcome)
    (ids : List String) : Except MediaError Unit :=
  let failed := failedIds outcome ids
  if failed.isEmpty then .ok ()
  else
    .error (createMediaError .DELETE_FAILED provider
      (.err "Error"
        ("Failed to delete " ++ toString failed.length ++ " of " ++
          toString ids.length ++ " files: " ++ String.intercalate ", " failed)
        none)
      none)

/-- A concrete outcome oracle where exactly the id `"bad"` fails. -/
def ocBad : DeleteOutcome := fun id =>
  if id = "bad" then some (.err "Error" "boom" none) else none

/-! ## `uploadMultiple` (batched, order preserving) -/

/-- `uploadMultiple(files, options)` result array, as implemented by the
three cited providers: walk the files in windows of `concurrency`
(caller-supplied, default 5), `Promise.all` each window, and append the
window's results (in window order) to the result array. The per-file
upload is abstracted as a function `upload`; each window settles fully
(the `await Promise.all`) before the loop continues to the next window. -/
def uploadMultipleModel (concurrency : Nat) (upload : α → β)
    (files : List α) : List β :=
  (chunksOf concurrency files).foldl (fun acc batch => acc ++ batch.map upload) []

/-! ## Upstream-error mapping and `delete` flows -/

/-- `err.name` as the adapters read it (`undefined` for non-`Error`s). -/
def Upstream.nameOf : Upstream → Option String
  | .err n _ _ => some n
  | .nonError => none

/-- `err.message` as the adapters read it. -/
def Upstream.msgOf : Upstream → Option String
  | .err _ m _ => some m
  | .nonError => none

/-- `err.$metadata?.httpStatusCode` as the R2 adapter reads it. -/
def Upstream.codeOf : Upstream → Option Nat
  | .err _ _ c => c
  | .nonError => none

/-- `err.message?.includes(pat)` (falsy when the message is absent). -/
def Upstream.msgIncludes (e : Upstream) (pat : String) : Bool :=
  match e.msgOf with
  | some m => strIncludes m pat
  | none => false

namespace R2Provider

/-- `R2Provider.mapS3Error` (r2-provider.ts): the ordered first-match
mapping from S3-compatible upstream failures onto the taxonomy. -/
def mapS3Error (bucket : String) (e : Upstream) (defaultCode : MediaErrorCode) :
    MediaError :=
  if e.nameOf = some "NoSuchBucket" then
    createMediaError .INVALID_CONFIG "r2"
      (.err "Error" ("Bucket '" ++ bucket ++ "' does not exist") none) none
  else if e.nameOf = some "AccessDenied" ∨ e.nameOf = some "InvalidAccessKeyId" ∨
      e.codeOf = some 403 then
    createMediaError .UNAUTHORIZED "r2"
      (.err "Error" "Access denied - check R2 credentials and bucket permissions" none)
      none
  else if e.nameOf = some "SignatureDoesNotMatch" ∨ e.codeOf = some 401 then
    createMediaError .INVALID_CREDENTIALS "r2"
      (.err "Error" "Invalid R2 credentials - check accessKeyId and secretAccessKey" none)
      none
  else if e.nameOf = some "NoSuchKey" ∨ e.codeOf = some 404 then
    createMediaError .FILE_NOT_FOUND "r2" e none
  else if e.nameOf = some "SlowDown" ∨ e.nameOf = some "ServiceUnavailable" ∨
      e.codeOf = some 503 then
    createMediaError .NETWORK_ERROR "r2"
      (.err "Error" "R2 service temporarily unavailable or rate limited - try again later" none)
      none
  else if e.nameOf = some "TimeoutError" ∨ e.msgIncludes "ETIMEDOUT" ∨
      e.msgIncludes "ECONNRESET" then
    createMediaError .NETWORK_ERROR "r2"
      (.err "Error" "Network timeout - check connection or try smaller file" none) none
  else if e.nameOf = some "EntityTooLarge" ∨ e.codeOf = some 413 then
    createMediaError .FILE_TOO_LARGE "r2"
      (.err "Error" "File exceeds maximum allowed size" none) none
  else createMediaError defaultCode "r2" e none

/-- `R2Provider.delete(id)`: sends `DeleteObjectCommand`; `backend = none`
models the S3-compatible API resolving the request (which it also does for
a key that does not exist — deleting a nonexistent object is a success at
the wire level), `backend = some e` models a rejection. -/
def deleteOp (bucket : String) (backend : Option Upstream) :
    Except MediaError Unit :=
  match backend with
  | none => .ok ()
  | some e => .error (mapS3Error bucket e .DELETE_FAILED)

end R2Provider

namespace S3Provider

/-- `S3Provider.mapS3Error` (s3-provider.ts, validated variant): maps by
upstream error name only. -/
def mapS3Error (bucket : String) (e : Upstream) (defaultCode : MediaErrorCode) :
    MediaError :=
  if e.nameOf = some "NoSuchBucket" then
    createMediaError .INVALID_CONFIG "s3"
      (.err "Error" ("Bucket '" ++ bucket ++ "' does not exist") none) none
  else if e.nameOf = some "AccessDenied" ∨ e.nameOf = some "InvalidAccessKeyId" then
    createMediaError .UNAUTHORIZED "s3"
      (.err "Error" "Access denied - check S3 credentials and bucket permissions" none)
      none
  else if e.nameOf = some "NoSuchKey" then
    createMediaError .FILE_NOT_FOUND "s3" e none
  else createMediaError defaultCode "s3" e none

/-- `S3Provider.delete(id)`, same wire semantics as the R2 variant. -/
def deleteOp (bucket : String) (backend : Option Upstream) :
    Except MediaError Unit :=
  match backend with
  | none => .ok ()
  | some e => .error (mapS3Error bucket e .DELETE_FAILED)

end S3Provider

namespace CloudinaryProvider

/-- The operation tag `mapCloudinaryError` takes. -/
inductive Operation where
  | upload
  | delete
  | get
  deriving DecidableEq, Repr

/-- The per-operation default kind of `mapCloudinaryError`. -/
def Operation.defaultCode : Operation → MediaErrorCode
  | .upload => .UPLOAD_FAILED
  | .delete => .DELETE_FAILED
  | .get => .FILE_NOT_FOUND

/-- What the Cloudinary adapter extracts from a caught value:
`errorMessage = err?.message ?? String(error)` and
`httpCode = err?.http_code ?? err?.error?.http_code`. -/
structure CaughtError where
  message : String
  httpCode : Option Nat
  deriving DecidableEq, Repr

/-- Render the caught value back as the `error as Error` argument the
default branch forwards to `createMediaError`. -/
def CaughtError.toUpstream (e : CaughtError) : Upstream :=
  .err "Error" e.message e.httpCode

/-- The `{ httpCode }` details object attached by most branches. -/
def httpCodeDetails (c : Option Nat) : List (String × String) :=
  [("httpCode", match c with | some n => toString n | none => "undefined")]

/-- `CloudinaryProvider.mapCloudinaryError`: the ordered first-match
mapping from Cloudinary upstream failures onto the taxonomy. -/
def mapCloudinaryError (e : CaughtError) (op : Operation) : MediaError :=
  if e.httpCode = some 401 ∨ strIncludes e.message "Invalid API key" then
    createMediaError .INVALID_CREDENTIALS "cloudinary"
      (.err "Error" "Invalid Cloudinary credentials - check apiKey and apiSecret" none)
      (some (httpCodeDetails e.httpCode))
  else if e.httpCode = some 402 ∨ strIncludes (strToLower e.message) "quota" then
    createMediaError .QUOTA_EXCEEDED "cloudinary"
      (.err "Error" "Cloudinary account quota exceeded" none)
      (some (httpCodeDetails e.httpCode))
  else if e.httpCode = some 404 ∨ strIncludes (strToLower e.message) "not found" then
    createMediaError .FILE_NOT_FOUND "cloudinary"
      (.err "Error" "File not found" none)
      (some (httpCodeDetails e.httpCode))
  else if e.httpCode = some 408 ∨ strIncludes (strToLower e.message) "timeout" ∨
      strIncludes e.message "ETIMEDOUT" then
    createMediaError .NETWORK_ERROR "cloudinary"
      (.err "Error" "Request timeout - network may be slow or file too large" none)
      (some (httpCodeDetails e.httpCode))
  else if strIncludes e.message "Invalid image file" ∨
      strIncludes e.message "File size too large" then
    createMediaError .FILE_TOO_LARGE "cloudinary"
      (.err "Error" ("Invalid file: " ++ e.message) none)
      (some (httpCodeDetails e.httpCode))
  else
    createMediaError op.defaultCode "cloudinary" e.toUpstream
      (some (("cloudinaryError", e.message) :: httpCodeDetails e.httpCode))

/-- `CloudinaryProvider.delete(id)`: calls `uploader.destroy(id)` and
inspects `result.result`; `"not found"` is treated as success alongside
`"ok"`; any other value raises `new Error(...)` which the catch block maps
through `mapCloudinaryError(..., 'delete')`. -/
def deleteOp (destroyResult : String) : Except MediaError Unit :=
  if destroyResult = "ok" ∨ destroyResult = "not found" then .ok ()
  else
    .error (mapCloudinaryError ⟨"Delete failed: " ++ destroyResult, none⟩ .delete)

end CloudinaryProvider

/-! ## Construction-time configuration validation -/

/-- `required.filter((field) => !config[field])`: the names of required
fields whose values are JS-falsy (absent or empty). -/
def requiredMissing (pairs : List (String × Option String)) : List String :=
  (pairs.filter (fun p => !jsTruthy p.2)).map (fun p => p.1)

/-- `S3Config` as the validating constructor reads it (fields may be
absent/empty, which the runtime cannot rule out). -/
structure S3Config where
  region : Option String
  bucket : Option String
  accessKeyId : Option String
  secretAccessKey : Option String
  deriving DecidableEq, Repr

namespace S3Provider

/-- The required-field list of the validating `S3Provider` constructor. -/
def requiredPairs (c : S3Config) : List (String × Option String) :=
  [("region", c.region), ("bucket", c.bucket),
    ("accessKeyId", c.accessKeyId), ("secretAccessKey", c.secretAccessKey)]

/-- The validating `S3Provider` constructor (s3-provider.ts): throws
`INVALID_CONFIG` when a required field is missing, then when the bucket
name contains a slash; otherwise it only stores the config. -/
def construct (c : S3Config) : Except MediaError Unit :=
  let missing := requiredMissing (requiredPairs c)
  if 0 < missing.length then
    .error (createMediaError .INVALID_CONFIG "s3"
      (.err "Error"
        ("Missing required S3 configuration: " ++ String.intercalate ", " missing)
        none)
      none)
  else if strIncludes (jsCoalesce c.bucket "") "/" then
    .error (createMediaError .INVALID_CONFIG "s3"
      (.err "Error" "Bucket name cannot contain slashes" none) none)
  else .ok ()

/-- The legacy `S3Provider` constructor also present in the sources:
its whole body is `this.config = config;` — it performs no validation and
never throws. -/
def legacyConstruct (_ : S3Config) : Except MediaError Unit :=
  .ok ()

end S3Provider

/-- `R2ProviderConfig` as the R2 constructor reads it. -/
structure R2Config where
  bucket : Option String
  accessKeyId : Option String
  secretAccessKey : Option String
  accountId : Option String
  endpoint : Option String
  publicUrl : Option String
  deriving DecidableEq, Repr

namespace R2Provider

/-- The required-field list of the `R2Provider` constructor. -/
def requiredPairs (c : R2Config) : List (String × Option String) :=
  [("bucket", c.bucket), ("accessKeyId", c.accessKeyId),
    ("secretAccessKey", c.secretAccessKey)]

/-- The `R2Provider` constructor (r2-provider.ts): first demands one of
`accountId` / `endpoint`, then the required fields, then a slash-free
bucket name; each violation throws `INVALID_CONFIG`. -/
def construct (c : R2Config) : Except MediaError Unit :=
  let missing := requiredMissing (requiredPairs c)
  if ¬ jsTruthy c.accountId ∧ ¬ jsTruthy c.endpoint then
    .error (createMediaError .INVALID_CONFIG "r2"
      (.err "Error" "Either accountId or endpoint must be provided" none) none)
  else if 0 < missing.length then
    .error (createMediaError .INVALID_CONFIG "r2"
      (.err "Error"
        ("Missing required R2 configuration: " ++ String.intercalate ", " missing)
        none)
      none)
  else if strIncludes (jsCoalesce c.bucket "") "/" then
    .error (createMediaError .INVALID_CONFIG "r2"
      (.err "Error" "Bucket name cannot contain slashes" none) none)
  else .ok ()

end R2Provider

/-- `CloudinaryConfig` as the Cloudinary constructor reads it. -/
structure CloudinaryConfig where
  cloudName : Option String
  apiKey : Option String
  apiSecret : Option String
  deriving DecidableEq, Repr

namespace CloudinaryProvider

/-- The required-field list of the `CloudinaryProvider` constructor. -/
def requiredPairs (c : CloudinaryConfig) : List (String × Option String) :=
  [("cloudName", c.cloudName), ("apiKey", c.apiKey), ("apiSecret", c.apiSecret)]

/-- The `CloudinaryProvider` constructor: throws `INVALID_CONFIG` on
missing required fields, then on a whitespace-only `cloudName`; otherwise
it only stores the config (non-enumerably, see the serialization model). -/
def construct (c : CloudinaryConfig) : Except MediaError Unit :=
  let missing := requiredMissing (requiredPairs c)
  if 0 < missing.length then
    .error (createMediaError .INVALID_CONFIG "cloudinary"
      (.err "Error"
        ("Missing required Cloudinary configuration: " ++
          String.intercalate ", " missing)
        none)
      none)
  else if (jsCoalesce c.cloudName "").trim = "" then
    .error (createMediaError .INVALID_CONFIG "cloudinary"
      (.err "Error" "cloudName must be a non-empty string" none) none)
  else .ok ()

end CloudinaryProvider

/-! ## `MediaUploader.supports`: dotted-path feature lookup -/

/-- A runtime feature-matrix value as the `supports` walk sees it:
boolean leaves, numeric leaves (`maxFileSize`), string-array leaves
(`supportedFormats`), and nested objects. -/
inductive FeatureVal where
  | b (x : Bool)
  | n (x : Nat)
  | strs (xs : List String)
  | obj (fields : List (String × FeatureVal))

/-- Own-property lookup on an object literal (`part in current` followed by
`current[part]`; prototype-chain hits can only yield functions or other
non-`true` values, which make the final `=== true` test false exactly as an
own-property miss does, so own-property lookup is observationally exact). -/
def lookupField : List (String × FeatureVal) → String → Option FeatureVal
  | [], _ => none
  | (k, v) :: rest, key => if k = key then some v else lookupField rest key

/-- The loop of `MediaUploader.supports`: walk the split path through the
matrix, bailing out with `false` on any unresolvable segment, and finish
with `current === true`. -/
def supportsAux : List String → FeatureVal → Bool
  | [], .b true => true
  | [], _ => false
  | p :: ps, .obj fields =>
    match lookupField fields p with
    | some v => supportsAux ps v
    | none => false
  | _ :: _, _ => false

/-- `feature.split('.')` (splitting on the single character `'.'`;
`"".split('.')` is `[""]`). -/
def splitDotAux : List Char → List Char → List String
  | [], acc => [String.mk acc.reverse]
  | c :: cs, acc =>
    if c = '.' then String.mk acc.reverse :: splitDotAux cs []
    else splitDotAux cs (c :: acc)

/-- JS `feature.split('.')`. -/
def jsSplitDot (s : String) : List String :=
  splitDotAux s.toList []

/-- `MediaUploader.supports(feature)`: split on `'.'` and walk. -/
def supports (features : FeatureVal) (feature : String) : Bool :=
  supportsAux (jsSplitDot feature) features

/-- The static `CloudinaryFeatures` matrix
(packages/cloudinary/src/features.ts). -/
def CloudinaryFeatures : FeatureVal :=
  .obj
    [("transformations", .obj
        [("resize", .b true), ("crop", .b true), ("format", .b true),
          ("quality", .b true), ("blur", .b true), ("rotate", .b true),
          ("effects", .b true)]),
      ("capabilities", .obj
        [("signedUploads", .b true), ("directUpload", .b true),
          ("multipartUpload", .b true), ("videoProcessing", .b true),
          ("aiTagging", .b true), ("facialDetection", .b true)]),
      ("storage", .obj
        [("maxFileSize", .n (100 * 1024 * 1024)),
          ("supportedFormats", .strs
            ["jpg", "jpeg", "png", "gif", "webp", "svg", "bmp", "tiff",
              "mp4", "mov", "avi", "webm", "pdf"])])]

/-- The feature matrix of the mock provider in the core test suite
(media-uploader.test.ts): an adapter whose matrix declares `blur: false`. -/
def MockProviderFeatures : FeatureVal :=
  .obj
    [("transformations", .obj
        [("resize", .b true), ("crop", .b true), ("format", .b true),
          ("quality", .b true), ("blur", .b false), ("rotate", .b false),
          ("effects", .b false)]),
      ("capabilities", .obj
        [("signedUploads", .b true), ("directUpload", .b true),
          ("multipartUpload", .b false), ("videoProcessing", .b false),
          ("aiTagging", .b false), ("facialDetection", .b false)]),
      ("storage", .obj
        [("maxFileSize", .n (10 * 1024 * 1024)),
          ("supportedFormats", .strs ["jpg", "png"])])]

/-! ## `MediaUploader.search` -/

/-- A thrown JS value as seen by a caller of the uploader: either a
`MediaError` or a plain `Error` with only a message. -/
inductive Thrown where
  | media (e : MediaError)
  | plain (message : String)
  deriving DecidableEq, Repr

/-- Whether a thrown value is a `MediaError` (`instanceof MediaError`). -/
def Thrown.isMediaError : Thrown → Bool
  | .media _ => true
  | .plain _ => false

/-- What `MediaUploader.search` needs from the active adapter: its `name`
and whether it implements the optional `search` capability. -/
structure ProviderHandle where
  name : String
  hasSearch : Bool
  deriving DecidableEq, Repr

/-- `MediaUploader.search(query)` (media-uploader.ts): when the provider
lacks `search`, it throws `new Error(...)` — a plain `Error`, built with
`Error`, not with `MediaError`/`createMediaError`; otherwise it delegates
(delegation abstracted as success). -/
def MediaUploader.searchModel (p : ProviderHandle) : Except Thrown Unit :=
  if p.hasSearch then .ok ()
  else .error (.plain ("Search is not supported by " ++ p.name ++ " provider"))

/-- The thrown value of a failed search, if any. -/
def searchThrown (p : ProviderHandle) : Option Thrown :=
  match MediaUploader.searchModel p with
  | .error t => some t
  | .ok _ => none

/-! ## Runtime own-property layout and serialization -/

/-- A runtime property value on an adapter instance, as serialization
sees it: `null` fields, strings, the (constant) static feature matrix,
or the stored configuration record (a flat map of config fields). -/
inductive PropVal where
  | nullV
  | strV (s : String)
  | featuresV
  | configV (fields : List (String × String))
  deriving DecidableEq, Repr

/-- One own property of an instance, with its enumerability. -/
structure OwnProp where
  name : String
  enumerable : Bool
  value : PropVal
  deriving DecidableEq, Repr

/-- What naive serialization by own-property enumeration
(`Object.entries`, spread, `JSON.stringify` without `toJSON`) yields:
the enumerable own properties in definition order. -/
def enumerableEntries (props : List OwnProp) : List (String × PropVal) :=
  (props.filter (fun p => p.enumerable)).map (fun p => (p.name, p.value))

/-- The value every provider's `toJSON()` returns:
`{ name: this.name, features: this.features }`. -/
def toJSONEntries (providerName : String) : List (String × PropVal) :=
  [("name", .strV providerName), ("features", .featuresV)]

/-- Fully-populated S3 credentials as stored by a constructed instance. -/
structure S3ConfigV where
  region : String
  bucket : String
  accessKeyId : String
  secretAccessKey : String
  deriving DecidableEq, Repr

namespace S3Provider

/-- The own properties of a constructed (validating-variant) `S3Provider`
instance: the class fields `name`, `features`, `client`, `clientPromise`
are ordinary (enumerable) properties, and `config` is stored by plain
assignment `this.config = config` — also an ordinary enumerable own
property. (`toJSON` lives on the prototype, not the instance.) -/
def instanceProps (c : S3ConfigV) : List OwnProp :=
  [⟨"name", true, .strV "s3"⟩,
    ⟨"features", true, .featuresV⟩,
    ⟨"client", true, .nullV⟩,
    ⟨"clientPromise", true, .nullV⟩,
    ⟨"config", true, .configV
      [("region", c.region), ("bucket", c.bucket),
        ("accessKeyId", c.accessKeyId),
        ("secretAccessKey", c.secretAccessKey)]⟩]

/-- `JSON.stringify` of the validating-variant instance: it defines
`toJSON`, so only `{name, features}` is emitted. -/
def stringifyEntries : List (String × PropVal) := toJSONEntries "s3"

/-- The own properties of a legacy `S3Provider` instance (the variant with
the unvalidating constructor): `name`, `features`, `client`, `config`,
all enumerable, and no `toJSON` anywhere — `JSON.stringify` falls back to
enumerating these. -/
def legacyInstanceProps (c : S3ConfigV) : List OwnProp :=
  [⟨"name", true, .strV "s3"⟩,
    ⟨"features", true, .featuresV⟩,
    ⟨"client", true, .nullV⟩,
    ⟨"config", true, .configV
      [("region", c.region), ("bucket", c.bucket),
        ("accessKeyId", c.accessKeyId),
        ("secretAccessKey", c.secretAccessKey)]⟩]

end S3Provider

/-- Fully-populated R2 credentials as stored by a constructed instance. -/
structure R2ConfigV where
  bucket : String
  accessKeyId : String
  secretAccessKey : String
  accountId : String
  publicUrl : String
  deriving DecidableEq, Repr

namespace R2Provider

/-- The own properties of a constructed `R2Provider` (r2-provider.ts)
instance: `config` is installed with
`Object.defineProperty(this, 'config', { enumerable: false, ... })`,
so it is a non-enumerable own property. -/
def instanceProps (c : R2ConfigV) : List OwnProp :=
  [⟨"name", true, .strV "r2"⟩,
    ⟨"features", true, .featuresV⟩,
    ⟨"client", true, .nullV⟩,
    ⟨"clientPromise", true, .nullV⟩,
    ⟨"config", false, .configV
      [("bucket", c.bucket), ("accessKeyId", c.accessKeyId),
        ("secretAccessKey", c.secretAccessKey),
        ("accountId", c.accountId), ("publicUrl", c.publicUrl)]⟩]

/-- `JSON.stringify` of an `R2Provider` instance (uses its `toJSON`). -/
def stringifyEntries : List (String × PropVal) := toJSONEntries "r2"

end R2Provider

/-- Fully-populated Cloudinary credentials as stored by an instance. -/
structure CloudinaryConfigV where
  cloudName : String
  apiKey : String
  apiSecret : String
  deriving DecidableEq, Repr

namespace CloudinaryProvider

/-- The own properties of a constructed `CloudinaryProvider` instance:
`config` is installed non-enumerably via `Object.defineProperty`
(`enumerable: false`). -/
def instanceProps (c : CloudinaryConfigV) : List OwnProp :=
  [⟨"name", true, .strV "cloudinary"⟩,
    ⟨"features", true, .featuresV⟩,
    ⟨"client", true, .nullV⟩,
    ⟨"clientPromise", true, .nullV⟩,
    ⟨"config", false, .configV
      [("cloudName", c.cloudName), ("apiKey", c.apiKey),
        ("apiSecret", c.apiSecret)]⟩]

/-- `JSON.stringify` of a `CloudinaryProvider` instance (uses `toJSON`). -/
def stringifyEntries : List (String × PropVal) := toJSONEntries "cloudinary"

end CloudinaryProvider

/-! ## The plugin pipeline

The hook-execution code of the uploader facade (`use()` and the
before/after/on-error pipeline around `upload`) is not among the source
files — only its consumers (the official plugins, which build hook maps),
its documentation, and README usage examples are. The pipeline is
therefore modelled from the spec (§4.4) below. -/

namespace Pipeline

variable {F O R E : Type}

/-- Trace events of one pipeline run: which hooks were invoked and whether
the adapter was called. -/
inductive Ev where
  | beforeHook (pluginName : String)
  | adapterCall
  | afterHook (pluginName : String)
  | errorHook (pluginName : String)
  deriving DecidableEq, Repr

/-- Modelled from the spec: a registered plugin (the `FluxMediaPlugin`
shape the official plugins construct) — a name plus optional
`beforeUpload` / `afterUpload` / `onError` hooks, over abstract file,
options, result and error types `F O R E`. A before-upload hook may
throw (`Except.error`), return a replacement pair (`some`), or return
nothing (`none`, treated as passing its input through unchanged). -/
structure Plugin (F O R E : Type) where
  name : String
  beforeUpload : Option (F → O → Except E (Option (F × O)))
  afterUpload : Option (R → Except E (Option R))
  onError : Option (E → Except E Unit)

/-- Modelled from the spec: running one plugin's before-upload hook on the
current `(file, options)` state — skipped silently when the plugin defines
none, otherwise invoked (traced), with a `none` return leaving the state
unchanged and a throw aborting. -/
def stepBefore (p : Plugin F O R E) (s : F × O) :
    List Ev × Except E (F × O) :=
  match p.beforeUpload with
  | none => ([], .ok s)
  | some h =>
    ([.beforeHook p.name],
      match h s.1 s.2 with
      | .error e => .error e
      | .ok none => .ok s
      | .ok (some s') => .ok s')

/-- Modelled from the spec: the before-upload phase — all registered
plugins' hooks strictly in registration order, each receiving the previous
hook's output, stopping at the first throw. -/
def runBeforeHooks : List (Plugin F O R E) → F × O → List Ev × Except E (F × O)
  | [], s => ([], .ok s)
  | p :: ps, s =>
    match stepBefore p s with
    | (t, .error e) => (t, .error e)
    | (t, .ok s') =>
      match runBeforeHooks ps s' with
      | (t', r') => (t ++ t', r')

/-- Modelled from the spec: running one plugin's after-upload hook. -/
def stepAfter (p : Plugin F O R E) (res : R) : List Ev × Except E R :=
  match p.afterUpload with
  | none => ([], .ok res)
  | some h =>
    ([.afterHook p.name],
      match h res with
      | .error e => .error e
      | .ok none => .ok res
      | .ok (some res') => .ok res')

/-- Modelled from the spec: the after-upload phase, in registration
order. -/
def runAfterHooks : List (Plugin F O R E) → R → List Ev × Except E R
  | [], res => ([], .ok res)
  | p :: ps, res =>
    match stepAfter p res with
    | (t, .error e) => (t, .error e)
    | (t, .ok res') =>
      match runAfterHooks ps res' with
      | (t', r') => (t ++ t', r')

/-- Modelled from the spec: the on-error phase — every plugin that defines
an `onError` hook has it invoked with the triggering error, in
registration order, best-effort: a hook's own outcome (including a throw)
is swallowed and never prevents the remaining hooks from running, which is
why only the invocation itself is observable in the trace. -/
def runErrorHooks (ps : List (Plugin F O R E)) (_e : E) : List Ev :=
  ps.filterMap (fun p => p.onError.map (fun _ => Ev.errorHook p.name))

/-- Modelled from the spec: `upload` through the pipeline —
before-hooks, then the adapter, then after-hooks; any throw aborts the
phase sequence, fires the on-error hooks with the thrown error, and
re-raises the original error to the caller. -/
def upload (ps : List (Plugin F O R E)) (adapter : F → O → Except E R)
    (f : F) (o : O) : List Ev × Except E R :=
  match runBeforeHooks ps (f, o) with
  | (t, .error e) => (t ++ runErrorHooks ps e, .error e)
  | (t, .ok (f', o')) =>
    match adapter f' o' with
    | .error e => (t ++ [.adapterCall] ++ runErrorHooks ps e, .error e)
    | .ok res =>
      match runAfterHooks ps res with
      | (t2, .error e) => (t ++ [.adapterCall] ++ t2 ++ runErrorHooks ps e, .error e)
      | (t2, .ok res') => (t ++ [.adapterCall] ++ t2, .ok res')

/-- Concrete witness plugin A: transforms the file, defines an on-error
hook. -/
def pA : Plugin Nat Nat Nat String :=
  ⟨"A", some (fun f o => .ok (some (f + 1, o))), none, some (fun _ => .ok ())⟩

/-- Concrete witness plugin B: its before-upload hook throws; it defines
no on-error hook. -/
def pB : Plugin Nat Nat Nat String :=
  ⟨"B", some (fun _ _ => .error "boom"), none, none⟩

/-- Concrete witness plugin C: has a before-upload hook and an on-error
hook that itself throws (best-effort: still invoked, failure swallowed). -/
def pC : Plugin Nat Nat Nat String :=
  ⟨"C", some (fun f o => .ok (some (f, o))), none,
    some (fun _ => .error "hook failed")⟩

/-- A concrete adapter for the witness. -/
def adNat : Nat → Nat → Except String Nat :=
  fun f o => .ok (f + o)

end Pipeline

/-! # Theorems -/

/-! ### C2: `uniqueFilename: false` gives byte-exact ids -/

/-- C2: for each adapter's key computation, `uniqueFilename: false`
with a caller-supplied (nonempty) filename yields exactly `filename`
with no folder, and exactly `folder/filename` with a (nonempty) folder,
no suffix appended — for every value of the randomness oracles.
(For S3/R2 the upload result's `id` is this key verbatim via
`createResult`; for Cloudinary it is the service-reported `public_id`.) -/
theorem uniqueFilenameFalse_exact_ids (s fo : String) (hs : s ≠ "") (hfo : fo ≠ "") :
    (∀ rid sid br,
      S3Provider.generateKey ⟨some s, none, some false⟩ rid = s ∧
      R2Provider.generateKey ⟨some s, none, some false⟩ rid sid = s ∧
      CloudinaryProvider.resultId ⟨some s, none, some false⟩ sid br = s) ∧
    (∀ rid sid br,
      S3Provider.generateKey ⟨some s, some fo, some false⟩ rid = fo ++ "/" ++ s ∧
      R2Provider.generateKey ⟨some s, some fo, some false⟩ rid sid = fo ++ "/" ++ s ∧
      CloudinaryProvider.resultId ⟨some s, some fo, some false⟩ sid br = fo ++ "/" ++ s) := by
  constructor <;> intro rid sid br <;>
    refine ⟨?_, ?_, ?_⟩ <;>
    simp [S3Provider.generateKey, R2Provider.generateKey,
      CloudinaryProvider.resultId, CloudinaryProvider.publicId,
      CloudinaryProvider.folderOption, folderPrefix, jsCoalesce, jsTruthy, hs, hfo]

/-- Witness for `uniqueFilenameFalse_exact_ids` at `filename = "avatar"`,
`folder = "profiles"` (the repository's own test inputs). -/
theorem uniqueFilenameFalse_exact_ids_witness :
    S3Provider.generateKey ⟨some "avatar", none, some false⟩ "x" = "avatar" ∧
    S3Provider.generateKey ⟨some "avatar", some "profiles", some false⟩ "x" =
      "profiles/avatar" := by
  have h := uniqueFilenameFalse_exact_ids "avatar" "profiles"
    (by decide) (by decide)
  exact ⟨(h.1 "x" "y" "z").1, (h.2 "x" "y" "z").1⟩

/-! ### C3: default `uniqueFilename` suffixing (S3 divergence) -/

/-- C3 (code evaluated at the failing input): `S3Provider.generateKey`
with `filename: "avatar"` and `uniqueFilename` omitted returns exactly
`"avatar"` for every value of the randomness oracle — no `-<suffix>` is
ever appended, so two consecutive calls with identical input return
identical keys. This contradicts the repository's own test
(`should generate unique filename when filename is provided (default)`),
which demands `/^avatar-[a-z0-9]{8,12}$/` and distinct keys. -/
theorem s3_generateKey_no_unique_suffix :
    ∀ rid rid' : String,
      S3Provider.generateKey ⟨some "avatar", none, none⟩ rid = "avatar" ∧
      S3Provider.generateKey ⟨some "avatar", none, none⟩ rid =
        S3Provider.generateKey ⟨some "avatar", none, none⟩ rid' := by
  intro rid rid'
  constructor <;> rfl

theorem chunksOfAux_flatten {c : Nat} (hc : 0 < c) :
    ∀ (fuel : Nat) (l : List α), l.length ≤ fuel →
      (chunksOfAux c fuel l).flatten = l := by
  intro fuel
  induction fuel with
  | zero =>
    intro l hl
    have : l = [] := List.eq_nil_of_length_eq_zero (Nat.le_zero.mp hl)
    subst this; rfl
  | succ n ih =>
    intro l hl
    match l with
    | [] => rfl
    | x :: xs =>
      have hdrop : ((x :: xs).drop c).length ≤ n := by
        rw [List.length_drop]
        simp only [List.length_cons] at hl ⊢
        omega
      show (x :: xs).take c ++ (chunksOfAux c n ((x :: xs).drop c)).flatten = x :: xs
      rw [ih _ hdrop, List.take_append_drop]

theorem chunksOf_flatten {c : Nat} (hc : 0 < c) (l : List α) :
    (chunksOf c l).flatten = l :=
  chunksOfAux_flatten hc l.length l (Nat.le_refl _)

theorem chunksOfAux_length_le {c : Nat} :
    ∀ (fuel : Nat) (l : List α) (b : List α),
      b ∈ chunksOfAux c fuel l → b.length ≤ c := by
  intro fuel
  induction fuel with
  | zero =>
    intro l b hb
    cases l <;> simp [chunksOfAux] at hb
  | succ n ih =>
    intro l b hb
    match l with
    | [] => simp [chunksOfAux] at hb
    | x :: xs =>
      rw [chunksOfAux] at hb
      rcases List.mem_cons.mp hb with h | h
      · subst h
        exact List.length_take_le c (x :: xs)
      · exact ih _ _ h

theorem chunksOf_length_le {c : Nat} (l : List α) (b : List α)
    (hb : b ∈ chunksOf c l) : b.length ≤ c :=
  chunksOfAux_length_le l.length l b hb

theorem foldl_append_filter (p : α → Bool) :
    ∀ (chunks : List (List α)) (acc : List α),
      chunks.foldl (fun a b => a ++ b.filter p) acc = acc ++ chunks.flatten.filter p := by
  intro chunks
  induction chunks with
  | nil => intro acc; simp
  | cons b bs ih =>
    intro acc
    simp only [List.foldl_cons, List.flatten_cons, List.filter_append, ih,
      List.append_assoc]

theorem foldl_append_map (f : α → β) :
    ∀ (chunks : List (List α)) (acc : List β),
      chunks.foldl (fun a b => a ++ b.map f) acc = acc ++ chunks.flatten.map f := by
  intro chunks
  induction chunks with
  | nil => intro acc; simp
  | cons b bs ih =>
    intro acc
    simp only [List.foldl_cons, List.flatten_cons, List.map_append, ih,
      List.append_assoc]

theorem failedIds_eq_filter (outcome : DeleteOutcome) (ids : List String) :
    failedIds outcome ids = ids.filter (fun id => (outcome id).isSome) := by
  unfold failedIds
  rw [foldl_append_filter, chunksOf_flatten (by norm_num)]
  rfl

/-- C4 counterexample: `deleteMultiple(["a", "bad"])` with one failing id
does reject, but the resulting `MediaError`'s structured `details` payload
is `none` — it enumerates nothing; the failed ids and totals live only in
the message string. -/
theorem deleteMultiple_details_empty :
    errDetails (deleteMultipleModel "s3" ocBad ["a", "bad"]) = some none := by
  decide

/-- C4 (amended): `deleteMultiple` attempts all N ids — the batch windows
it processes concatenate to exactly the input list, with no early abort on
failure — and, when K ≥ 1 ids fail, rejects with a single aggregate
`DELETE_FAILED` error whose *message* enumerates exactly the failed ids
and the K-of-N totals (the structured `details` map stays unset); when
K = 0 it resolves. -/
theorem deleteMultiple_aggregate (provider : String) (outcome : DeleteOutcome)
    (ids : List String) :
    (chunksOf 10 ids).flatten = ids ∧
    failedIds outcome ids = ids.filter (fun id => (outcome id).isSome) ∧
    (failedIds outcome ids = [] →
      deleteMultipleModel provider outcome ids = .ok ()) ∧
    (failedIds outcome ids ≠ [] →
      deleteMultipleModel provider outcome ids =
        .error (createMediaError .DELETE_FAILED provider
          (.err "Error"
            ("Failed to delete " ++ toString (failedIds outcome ids).length ++
              " of " ++ toString ids.length ++ " files: " ++
              String.intercalate ", " (failedIds outcome ids))
            none)
          none)) := by
  refine ⟨chunksOf_flatten (by norm_num) ids, failedIds_eq_filter outcome ids, ?_, ?_⟩
  · intro h
    simp [deleteMultipleModel, h]
  · intro h
    simp [deleteMultipleModel, List.isEmpty_iff, h]

/-- Witness for `deleteMultiple_aggregate`: instantiated at the concrete
two-id batch where `"bad"` fails. -/
theorem deleteMultiple_aggregate_witness :
    deleteMultipleModel "s3" ocBad ["a", "bad"] =
      .error (createMediaError .DELETE_FAILED "s3"
        (.err "Error" "Failed to delete 1 of 2 files: bad" none) none) := by
  have h := (deleteMultiple_aggregate "s3" ocBad ["a", "bad"]).2.2.2 (by decide)
  simp only [show failedIds ocBad ["a", "bad"] = ["bad"] from by decide] at h
  exact h

/-- C5: for every positive concurrency bound, `uploadMultiple` processes
the input as the sequential windows `chunksOf concurrency files` — these
concatenate back to the input and each has at most `concurrency`
elements — and the result array corresponds element-by-element to the
input order: it equals `files.map upload`. -/
theorem uploadMultiple_order_and_batches (concurrency : Nat)
    (hc : 0 < concurrency) (upload : α → β) (files : List α) :
    uploadMultipleModel concurrency upload files = files.map upload ∧
    (chunksOf concurrency files).flatten = files ∧
    ∀ b ∈ chunksOf concurrency files, b.length ≤ concurrency := by
  refine ⟨?_, chunksOf_flatten hc files, fun b hb => chunksOf_length_le files b hb⟩
  unfold uploadMultipleModel
  rw [foldl_append_map, chunksOf_flatten hc]
  rfl

/-- Witness for `uploadMultiple_order_and_batches`: concurrency 2 over
three files, upload abstracted as string-keying. -/
theorem uploadMultiple_order_and_batches_witness :
    uploadMultipleModel 2 (fun n : Nat => toString n) [10, 20, 30] =
      ["10", "20", "30"] := by
  have h := (uploadMultiple_order_and_batches 2 (by norm_num)
    (fun n : Nat => toString n) [10, 20, 30]).1
  simpa using h

namespace R2Provider

theorem r2_mapS3Error_code_mem (bucket : String) (e : Upstream)
    (defaultCode : MediaErrorCode) :
    (mapS3Error bucket e defaultCode).code ∈
      [MediaErrorCode.INVALID_CONFIG, .UNAUTHORIZED, .INVALID_CREDENTIALS,
        .FILE_NOT_FOUND, .NETWORK_ERROR, .FILE_TOO_LARGE, defaultCode] := by
  unfold mapS3Error
  split <;> try simp [createMediaError]
  split <;> try simp [createMediaError]
  split <;> try simp [createMediaError]
  split <;> try simp [createMediaError]
  split <;> try simp [createMediaError]
  split <;> try simp [createMediaError]
  split <;> simp [createMediaError]

end R2Provider

namespace S3Provider

theorem s3_mapS3Error_code_mem (bucket : String) (e : Upstream)
    (defaultCode : MediaErrorCode) :
    (mapS3Error bucket e defaultCode).code ∈
      [MediaErrorCode.INVALID_CONFIG, .UNAUTHORIZED, .FILE_NOT_FOUND,
        defaultCode] := by
  unfold mapS3Error
  split <;> try simp [createMediaError]
  split <;> try simp [createMediaError]
  split <;> simp [createMediaError]

end S3Provider

namespace CloudinaryProvider

theorem mapCloudinaryError_code_mem (e : CaughtError) (op : Operation) :
    (mapCloudinaryError e op).code ∈
      [MediaErrorCode.INVALID_CREDENTIALS, .QUOTA_EXCEEDED, .FILE_NOT_FOUND,
        .NETWORK_ERROR, .FILE_TOO_LARGE, op.defaultCode] := by
  unfold mapCloudinaryError
  split <;> try simp [createMediaError]
  split <;> try simp [createMediaError]
  split <;> try simp [createMediaError]
  split <;> try simp [createMediaError]
  split <;> simp [createMediaError]

end CloudinaryProvider

/-! ### C6: delete is an idempotent no-op on missing objects -/

/-- C6: deleting a nonexistent object resolves on every adapter —
Cloudinary's `destroy` reports `"not found"`, which `delete` accepts
alongside `"ok"`; the S3-compatible `DeleteObject` call of S3/R2 resolves
at the wire level for missing keys (modelled as `backend = none`) — and
every other backend delete failure surfaces as a taxonomy `MediaError`
whose kind is `DELETE_FAILED` or one of the more specific kinds the
adapter's mapping table produces. -/
theorem delete_idempotent_and_taxonomy :
    CloudinaryProvider.deleteOp "not found" = .ok () ∧
    (∀ bucket, R2Provider.deleteOp bucket none = .ok ()) ∧
    (∀ bucket, S3Provider.deleteOp bucket none = .ok ()) ∧
    (∀ r, r ≠ "ok" → r ≠ "not found" →
      errCode (CloudinaryProvider.deleteOp r) = some
        (CloudinaryProvider.mapCloudinaryError
          ⟨"Delete failed: " ++ r, none⟩ .delete).code ∧
      (CloudinaryProvider.mapCloudinaryError
          ⟨"Delete failed: " ++ r, none⟩ .delete).code ∈
        [MediaErrorCode.INVALID_CREDENTIALS, .QUOTA_EXCEEDED, .FILE_NOT_FOUND,
          .NETWORK_ERROR, .FILE_TOO_LARGE, .DELETE_FAILED]) ∧
    (∀ bucket e,
      errCode (R2Provider.deleteOp bucket (some e)) = some
        (R2Provider.mapS3Error bucket e .DELETE_FAILED).code ∧
      (R2Provider.mapS3Error bucket e .DELETE_FAILED).code ∈
        [MediaErrorCode.INVALID_CONFIG, .UNAUTHORIZED, .INVALID_CREDENTIALS,
          .FILE_NOT_FOUND, .NETWORK_ERROR, .FILE_TOO_LARGE, .DELETE_FAILED]) ∧
    (∀ bucket e,
      errCode (S3Provider.deleteOp bucket (some e)) = some
        (S3Provider.mapS3Error bucket e .DELETE_FAILED).code ∧
      (S3Provider.mapS3Error bucket e .DELETE_FAILED).code ∈
        [MediaErrorCode.INVALID_CONFIG, .UNAUTHORIZED, .FILE_NOT_FOUND,
          .DELETE_FAILED]) := by
  refine ⟨rfl, fun _ => rfl, fun _ => rfl, ?_, ?_, ?_⟩
  · intro r h1 h2
    refine ⟨?_, CloudinaryProvider.mapCloudinaryError_code_mem _ _⟩
    simp [CloudinaryProvider.deleteOp, h1, h2, errCode]
  · intro bucket e
    exact ⟨rfl, R2Provider.r2_mapS3Error_code_mem bucket e _⟩
  · intro bucket e
    exact ⟨rfl, S3Provider.s3_mapS3Error_code_mem bucket e _⟩

/-- Witness for `delete_idempotent_and_taxonomy`: a concrete failing
destroy result and a concrete upstream access-denied error. -/
theorem delete_idempotent_and_taxonomy_witness :
    errCode (CloudinaryProvider.deleteOp "error") = some .DELETE_FAILED ∧
    errCode (R2Provider.deleteOp "b" (some (.err "AccessDenied" "denied" none))) =
      some .UNAUTHORIZED := by
  have h := delete_idempotent_and_taxonomy
  have h1 := (h.2.2.2.1 "error" (by decide) (by decide)).1
  have h2 := (h.2.2.2.2.1 "b" (.err "AccessDenied" "denied" none)).1
  refine ⟨?_, ?_⟩
  · rw [h1]; decide
  · rw [h2]; decide

theorem requiredMissing_nil_iff (pairs : List (String × Option String)) :
    requiredMissing pairs = [] ↔ ∀ p ∈ pairs, jsTruthy p.2 = true := by
  unfold requiredMissing
  simp only [List.map_eq_nil_iff, List.filter_eq_nil_iff, Bool.not_eq_true',
    Bool.not_eq_false]

/-! ### C7: synchronous `INVALID_CONFIG` at construction -/

/-- C7 counterexample: the legacy `S3Provider` constructor, applied to a
configuration missing every required field (all `undefined`), returns
normally — no `INVALID_CONFIG` error is thrown at construction time. -/
theorem legacy_s3_construct_no_validation :
    S3Provider.legacyConstruct ⟨none, none, none, none⟩ = .ok () := rfl

/-- C7 (amended): the Cloudinary and R2 constructors, and the validating
S3 constructor variant, throw a `MediaError` of kind `INVALID_CONFIG`
synchronously whenever a required field is missing (JS-falsy) or the
bucket name contains a path separator (for Cloudinary: whenever
`cloudName` trims to empty); no client is constructed on these paths.
The legacy S3 constructor variant performs no such validation
(see `legacy_s3_construct_no_validation`). -/
theorem constructors_validate (sc : S3Config) (rc : R2Config)
    (cc : CloudinaryConfig) :
    ((jsTruthy sc.region = false ∨ jsTruthy sc.bucket = false ∨
        jsTruthy sc.accessKeyId = false ∨ jsTruthy sc.secretAccessKey = false ∨
        strIncludes (jsCoalesce sc.bucket "") "/" = true) →
      errCode (S3Provider.construct sc) = some .INVALID_CONFIG) ∧
    ((jsTruthy rc.bucket = false ∨ jsTruthy rc.accessKeyId = false ∨
        jsTruthy rc.secretAccessKey = false ∨
        (jsTruthy rc.accountId = false ∧ jsTruthy rc.endpoint = false) ∨
        strIncludes (jsCoalesce rc.bucket "") "/" = true) →
      errCode (R2Provider.construct rc) = some .INVALID_CONFIG) ∧
    ((jsTruthy cc.cloudName = false ∨ jsTruthy cc.apiKey = false ∨
        jsTruthy cc.apiSecret = false ∨ (jsCoalesce cc.cloudName "").trim = "") →
      errCode (CloudinaryProvider.construct cc) = some .INVALID_CONFIG) := by
  refine ⟨?_, ?_, ?_⟩
  · intro h
    unfold S3Provider.construct
    by_cases hm : 0 < (requiredMissing (S3Provider.requiredPairs sc)).length
    · rw [if_pos hm]; rfl
    · have hnil : requiredMissing (S3Provider.requiredPairs sc) = [] :=
        List.eq_nil_of_length_eq_zero (by omega)
      have hall := (requiredMissing_nil_iff _).mp hnil
      have hslash : strIncludes (jsCoalesce sc.bucket "") "/" = true := by
        rcases h with h | h | h | h | h
        · exact absurd (hall ("region", sc.region) (by simp [S3Provider.requiredPairs]))
            (by simp [h])
        · exact absurd (hall ("bucket", sc.bucket) (by simp [S3Provider.requiredPairs]))
            (by simp [h])
        · exact absurd (hall ("accessKeyId", sc.accessKeyId)
            (by simp [S3Provider.requiredPairs])) (by simp [h])
        · exact absurd (hall ("secretAccessKey", sc.secretAccessKey)
            (by simp [S3Provider.requiredPairs])) (by simp [h])
        · exact h
      rw [if_neg hm, if_pos hslash]; rfl
  · intro h
    unfold R2Provider.construct
    by_cases hae : ¬ jsTruthy rc.accountId ∧ ¬ jsTruthy rc.endpoint
    · rw [if_pos hae]; rfl
    · rw [if_neg hae]
      by_cases hm : 0 < (requiredMissing (R2Provider.requiredPairs rc)).length
      · rw [if_pos hm]; rfl
      · have hnil : requiredMissing (R2Provider.requiredPairs rc) = [] :=
          List.eq_nil_of_length_eq_zero (by omega)
        have hall := (requiredMissing_nil_iff _).mp hnil
        have hslash : strIncludes (jsCoalesce rc.bucket "") "/" = true := by
          rcases h with h | h | h | h | h
          · exact absurd (hall ("bucket", rc.bucket)
              (by simp [R2Provider.requiredPairs])) (by simp [h])
          · exact absurd (hall ("accessKeyId", rc.accessKeyId)
              (by simp [R2Provider.requiredPairs])) (by simp [h])
          · exact absurd (hall ("secretAccessKey", rc.secretAccessKey)
              (by simp [R2Provider.requiredPairs])) (by simp [h])
          · exact absurd (by simp [h.1, h.2] : ¬ jsTruthy rc.accountId ∧
              ¬ jsTruthy rc.endpoint) hae
          · exact h
        rw [if_neg hm, if_pos hslash]; rfl
  · intro h
    unfold CloudinaryProvider.construct
    by_cases hm : 0 < (requiredMissing (CloudinaryProvider.requiredPairs cc)).length
    · rw [if_pos hm]; rfl
    · have hnil : requiredMissing (CloudinaryProvider.requiredPairs cc) = [] :=
        List.eq_nil_of_length_eq_zero (by omega)
      have hall := (requiredMissing_nil_iff _).mp hnil
      have htrim : (jsCoalesce cc.cloudName "").trim = "" := by
        rcases h with h | h | h | h
        · exact absurd (hall ("cloudName", cc.cloudName)
            (by simp [CloudinaryProvider.requiredPairs])) (by simp [h])
        · exact absurd (hall ("apiKey", cc.apiKey)
            (by simp [CloudinaryProvider.requiredPairs])) (by simp [h])
        · exact absurd (hall ("apiSecret", cc.apiSecret)
            (by simp [CloudinaryProvider.requiredPairs])) (by simp [h])
        · exact h
      rw [if_neg hm, if_pos htrim]; rfl

/-- Witness for `constructors_validate`: an S3 config with a slash in its
bucket name, an R2 config missing both `accountId` and `endpoint`, and a
Cloudinary config missing `apiSecret`. -/
theorem constructors_validate_witness :
    errCode (S3Provider.construct
      ⟨some "us-east-1", some "my/bucket", some "k", some "s"⟩) =
      some .INVALID_CONFIG ∧
    errCode (R2Provider.construct
      ⟨some "b", some "k", some "s", none, none, none⟩) =
      some .INVALID_CONFIG ∧
    errCode (CloudinaryProvider.construct ⟨some "cloud", some "key", none⟩) =
      some .INVALID_CONFIG := by
  have h := constructors_validate
    ⟨some "us-east-1", some "my/bucket", some "k", some "s"⟩
    ⟨some "b", some "k", some "s", none, none, none⟩
    ⟨some "cloud", some "key", none⟩
  exact ⟨h.1 (by right; right; right; right; decide),
    h.2.1 (by right; right; right; left; decide),
    h.2.2 (by right; right; left; decide)⟩

/-! ### C8: `supports` never throws, safe nested lookup -/

/-- C8: `supports` is a total boolean function — any path segment that does
not resolve as a field of the current object yields `false` (first
conjunct, for every matrix and path) — and on the concrete matrices a
feature whose leaf is `true` (`transformations.blur` on Cloudinary)
reports `true`, one whose leaf is `false` (`transformations.blur` on the
mock adapter) reports `false`, and entirely unknown paths report `false`
on both. -/
theorem supports_safe_lookup :
    (∀ (fields : List (String × FeatureVal)) (p : String) (ps : List String),
      lookupField fields p = none → supportsAux (p :: ps) (.obj fields) = false) ∧
    supports CloudinaryFeatures "transformations.blur" = true ∧
    supports MockProviderFeatures "transformations.blur" = false ∧
    supports CloudinaryFeatures "nonexistent.path" = false ∧
    supports MockProviderFeatures "nonexistent.path" = false ∧
    supports MockProviderFeatures "transformations.nonexistent" = false := by
  refine ⟨?_, rfl, rfl, rfl, rfl, rfl⟩
  intro fields p ps h
  simp [supportsAux, h]

/-- Witness for `supports_safe_lookup`: the unresolvable-segment clause
applied at the empty object and segment `"x"`. -/
theorem supports_safe_lookup_witness :
    supportsAux ["x"] (.obj []) = false :=
  supports_safe_lookup.1 [] "x" [] rfl

/-! ### C9: search on a search-less adapter -/

/-- C9 counterexample: on a provider named `"mock"` without `search`
(the core test suite's mock), the uploader rejects with the plain `Error`
`"Search is not supported by mock provider"`; the thrown value is not a
`MediaError`, so it carries no `PROVIDER_ERROR` taxonomy kind. -/
theorem search_not_media_error :
    searchThrown ⟨"mock", false⟩ =
      some (.plain "Search is not supported by mock provider") ∧
    (searchThrown ⟨"mock", false⟩).map Thrown.isMediaError = some false := by
  exact ⟨rfl, rfl⟩

/-- C9 (amended): for every provider without `search`, the uploader
rejects — it does not return an empty result list — with a plain `Error`
whose message names the provider and the unsupported operation
(`"Search is not supported by <name> provider"`); the thrown value is a
plain `Error`, not a `MediaError` with kind `PROVIDER_ERROR`. -/
theorem search_unsupported_plain_error (name : String) :
    MediaUploader.searchModel ⟨name, false⟩ =
      .error (.plain ("Search is not supported by " ++ name ++ " provider")) ∧
    (searchThrown ⟨name, false⟩).map Thrown.isMediaError = some false := by
  exact ⟨rfl, rfl⟩

/-! ### C10: credentials under naive serialization -/

/-- C10 counterexample: two validating-variant `S3Provider` instances
differing only in `secretAccessKey` have *different* enumerable
own-property serializations, and the serialization of the first contains
the full credential-bearing `config` record — `secretAccessKey` value
included. (Only `JSON.stringify` is shielded by `toJSON`; property
enumeration is not, and the legacy variant exposes the record to
`JSON.stringify` as well.) -/
theorem s3_enumeration_exposes_credentials :
    enumerableEntries (S3Provider.instanceProps
        ⟨"us-east-1", "b", "AKIA", "sec-A"⟩) ≠
      enumerableEntries (S3Provider.instanceProps
        ⟨"us-east-1", "b", "AKIA", "sec-B"⟩) ∧
    ("config", .configV
        [("region", "us-east-1"), ("bucket", "b"), ("accessKeyId", "AKIA"),
          ("secretAccessKey", "sec-A")]) ∈
      enumerableEntries (S3Provider.instanceProps
        ⟨"us-east-1", "b", "AKIA", "sec-A"⟩) ∧
    ("config", .configV
        [("region", "us-east-1"), ("bucket", "b"), ("accessKeyId", "AKIA"),
          ("secretAccessKey", "sec-A")]) ∈
      enumerableEntries (S3Provider.legacyInstanceProps
        ⟨"us-east-1", "b", "AKIA", "sec-A"⟩) := by
  refine ⟨?_, by decide, by decide⟩
  decide

/-- C10 (amended): for the Cloudinary and R2 adapters the claim holds —
the credential-bearing `config` property is non-enumerable, so
own-property enumeration yields exactly
`name`/`features`/`client`/`clientPromise` (identical for any two
configurations, whatever their credentials), and `JSON.stringify` goes
through `toJSON`, whose output mentions no configuration field at all.
For the S3 adapter only `JSON.stringify` is protected (via `toJSON`);
own-property enumeration exposes `config`
(see `s3_enumeration_exposes_credentials`). -/
theorem cloudinary_r2_serialization_credential_free
    (cc cc' : CloudinaryConfigV) (rc rc' : R2ConfigV) :
    enumerableEntries (CloudinaryProvider.instanceProps cc) =
      [("name", .strV "cloudinary"), ("features", .featuresV),
        ("client", .nullV), ("clientPromise", .nullV)] ∧
    enumerableEntries (CloudinaryProvider.instanceProps cc) =
      enumerableEntries (CloudinaryProvider.instanceProps cc') ∧
    enumerableEntries (R2Provider.instanceProps rc) =
      [("name", .strV "r2"), ("features", .featuresV),
        ("client", .nullV), ("clientPromise", .nullV)] ∧
    enumerableEntries (R2Provider.instanceProps rc) =
      enumerableEntries (R2Provider.instanceProps rc') ∧
    CloudinaryProvider.stringifyEntries =
      [("name", .strV "cloudinary"), ("features", .featuresV)] ∧
    R2Provider.stringifyEntries = [("name", .strV "r2"), ("features", .featuresV)] ∧
    S3Provider.stringifyEntries = [("name", .strV "s3"), ("features", .featuresV)] := by
  exact ⟨rfl, rfl, rfl, rfl, rfl, rfl, rfl⟩

namespace Pipeline

variable {F O R E : Type}

theorem stepBefore_trace (p : Plugin F O R E) (s : F × O) :
    (stepBefore p s).1 = [] ∨ (stepBefore p s).1 = [Ev.beforeHook p.name] := by
  unfold stepBefore
  cases p.beforeUpload <;> simp

/-- C1: with plugins `A, B, C` registered in that order, if `A`'s
before-upload step succeeds with state `s₁` and `B`'s before-upload hook
throws `e` there, then the whole upload run produces exactly the trace
`A's step ++ [B's before hook] ++ the on-error invocations` and rejects
with the original `e`: the adapter is never called (`adapterCall` is not
in the trace), no before-hook of any plugin beyond `B` runs, and the
on-error hooks of precisely the plugins that define one fire, in
registration order. -/
theorem beforeHook_throw_aborts (A B C : Plugin F O R E)
    (adapter : F → O → Except E R) (f : F) (o : O)
    (tA : List Ev) (s₁ : F × O) (e : E)
    (hb : F → O → Except E (Option (F × O)))
    (hA : stepBefore A (f, o) = (tA, .ok s₁))
    (hBdef : B.beforeUpload = some hb)
    (hBthrow : hb s₁.1 s₁.2 = .error e) :
    upload [A, B, C] adapter f o =
      (tA ++ [Ev.beforeHook B.name] ++ runErrorHooks [A, B, C] e, .error e) ∧
    runErrorHooks [A, B, C] e =
      (if A.onError.isSome then [Ev.errorHook A.name] else []) ++
        (if B.onError.isSome then [Ev.errorHook B.name] else []) ++
        (if C.onError.isSome then [Ev.errorHook C.name] else []) ∧
    Ev.adapterCall ∉ (upload [A, B, C] adapter f o).1 ∧
    ∀ n, Ev.beforeHook n ∈ (upload [A, B, C] adapter f o).1 →
      n = A.name ∨ n = B.name := by
  have hB' : stepBefore B s₁ = ([Ev.beforeHook B.name], .error e) := by
    simp [stepBefore, hBdef, hBthrow]
  have h1 : runBeforeHooks [A, B, C] (f, o) =
      (tA ++ [Ev.beforeHook B.name], Except.error e) := by
    simp [runBeforeHooks, hA, hB']
  have h2 : upload [A, B, C] adapter f o =
      (tA ++ [Ev.beforeHook B.name] ++ runErrorHooks [A, B, C] e, .error e) := by
    simp [upload, h1]
  have htA : tA = [] ∨ tA = [Ev.beforeHook A.name] := by
    have h := stepBefore_trace A (f, o)
    rwa [hA] at h
  refine ⟨h2, ?_, ?_, ?_⟩
  · cases hao : A.onError <;> cases hbo : B.onError <;> cases hco : C.onError <;>
      simp [runErrorHooks, hao, hbo, hco]
  · rw [h2]
    rcases htA with h | h <;> subst h <;>
      cases hao : A.onError <;> cases hbo : B.onError <;> cases hco : C.onError <;>
        simp [runErrorHooks, hao, hbo, hco]
  · intro n hn
    rw [h2] at hn
    rcases htA with h | h <;> subst h <;>
      cases hao : A.onError <;> cases hbo : B.onError <;> cases hco : C.onError <;>
        simp [runErrorHooks, hao, hbo, hco] at hn <;> tauto

/-- Witness for `beforeHook_throw_aborts`: the concrete plugins
`pA, pB, pC` with `pB` throwing `"boom"` — `pA`'s before hook ran, `pC`'s
did not, the adapter was never invoked, the on-error hooks of `pA` and
`pC` (the plugins defining one) both fired in order, and the caller got
the original `"boom"`. -/
theorem beforeHook_throw_aborts_witness :
    upload [pA, pB, pC] adNat 0 5 =
      ([Ev.beforeHook "A", Ev.beforeHook "B",
        Ev.errorHook "A", Ev.errorHook "C"], .error "boom") := by
  have h := beforeHook_throw_aborts pA pB pC adNat 0 5
    [Ev.beforeHook "A"] (1, 5) "boom" (fun _ _ => .error "boom")
    rfl rfl rfl
  exact h.1.trans rfl

end Pipeline
